import Mathlib

/-!
Shallow embedding of the `mlopsdemo` repository: the FastAPI inference service
(`src/api/app.py`) and the data-loading helpers (`src/data/data_loader.py`).

Floats are modelled as rationals; fallible code returns `Except`.  External
collaborators (the trained scikit-learn classifier, `joblib`, the filesystem,
the web framework's file serving, `train_test_split`) are modelled as explicit
parameters or, where the repository's own code is absent from the sources,
from the specification (each such definition says so in its doc comment).
-/

set_option maxRecDepth 8000

namespace MLOps

/-- A request body for `/predict` as parsed by pydantic: the four iris
measurements (`IrisFeatures` in `src/api/app.py`). -/
structure IrisFeatures where
  sepal_length : ℚ
  sepal_width : ℚ
  petal_length : ℚ
  petal_width : ℚ
  deriving DecidableEq, Repr

/-- The pydantic field constraint `Field(..., ge=0, le=10)`. -/
def inRange (x : ℚ) : Bool :=
  decide (0 ≤ x) && decide (x ≤ 10)

/-- Pydantic validation of one sample: every one of the 4 fields must lie
in `[0, 10]` (`IrisFeatures`, `src/api/app.py` lines 44-48). -/
def IrisFeatures.valid (f : IrisFeatures) : Bool :=
  inRange f.sepal_length && inRange f.sepal_width &&
    inRange f.petal_length && inRange f.petal_width

/-- Errors surfaced by the HTTP layer: pydantic request-validation failures
(HTTP 422) and explicitly raised `HTTPException`s with a status code. -/
inductive ApiError where
  | validation (detail : String)
  | http (status : ℕ) (detail : String)
  deriving DecidableEq, Repr

/-- The spec's `ValidationError` taxon: a pydantic validation failure or the
handler-raised HTTP 400 (bad batch size). -/
def ApiError.isValidationError : ApiError → Bool
  | .validation _ => true
  | .http s _ => s == 400

/-- The HTTP status a given error is reported with. -/
def ApiError.status : ApiError → ℕ
  | .validation _ => 422
  | .http s _ => s

/-- The fixed class-name table `target_names` from `src/api/app.py` line 85. -/
def target_names : List String :=
  ["setosa", "versicolor", "virginica"]

/-- The fixed `feature_names` from `src/api/app.py` lines 79-84. -/
def feature_names : List String :=
  ["sepal length (cm)", "sepal width (cm)", "petal length (cm)", "petal width (cm)"]

/-- The opaque trained classifier held in the global `model` variable:
its two query operations, class prediction (`model.predict`, an integer)
and per-class probabilities (`model.predict_proba`, a vector). -/
structure IrisModel where
  predictId : IrisFeatures → ℤ
  predictProba : IrisFeatures → List ℚ

/-- Modelled from the spec: the trained classifier (produced by
`src/models/iris_model.py`, which is absent from the sources, via
scikit-learn) is "an opaque trained classifier object with two query
operations — class prediction and per-class probability distribution (the
distribution sums to 1.0 across the 3 classes)".  Well-formedness: the
predicted class index is one of the 3 classes and the probability vector is
a length-3 distribution. -/
def IrisModel.WF (m : IrisModel) : Prop :=
  ∀ f : IrisFeatures,
    0 ≤ m.predictId f ∧ m.predictId f < 3 ∧
    (m.predictProba f).length = 3 ∧
    (∀ p ∈ m.predictProba f, 0 ≤ p ∧ p ≤ 1) ∧
    (m.predictProba f).sum = 1

/-- Python index normalization: a negative index counts from the end. -/
def pyNorm (n : ℕ) (i : ℤ) : ℤ :=
  if i < 0 then i + n else i

/-- Python list indexing `l[i]` (negative indices wrap; out of bounds raises
`IndexError`, modelled as `none`), as used by `target_names[prediction_id]`. -/
def pyIndex (l : List String) (i : ℤ) : Option String :=
  if h : 0 ≤ pyNorm l.length i ∧ pyNorm l.length i < l.length then
    l.get ⟨(pyNorm l.length i).toNat, by omega⟩
  else
    none

/-- Python `max(xs)`: `none` on an empty sequence (which raises), otherwise
the greatest element. -/
def pyMax : List ℚ → Option ℚ
  | [] => none
  | x :: xs =>
    match pyMax xs with
    | none => some x
    | some m => some (max x m)

/-- The response body of `/predict` (`PredictionResponse` in
`src/api/app.py`): the probabilities dict is a list of (class name, value)
pairs built by `zip(target_names, probabilities)`. -/
structure PredictionResponse where
  prediction : String
  prediction_id : ℤ
  confidence : ℚ
  probabilities : List (String × ℚ)
  deriving DecidableEq, Repr

/-- The response body of `/predict/batch` (`BatchPredictionResponse`). -/
structure BatchPredictionResponse where
  predictions : List PredictionResponse
  batch_size : ℕ
  deriving DecidableEq, Repr

/-- The inference steps inside the `try:` block shared by `predict` and the
loop body of `predict_batch` (`src/api/app.py` lines 192-221 and 243-274):
predict a class id, look its name up in `target_names`, take the max
probability as confidence, and zip names with probabilities.  An uncaught
Python exception (IndexError on the name lookup, `max` on an empty vector)
is an `.error` with a message, to be turned into HTTP 500 by the caller. -/
def runInference (m : IrisModel) (f : IrisFeatures) : Except String PredictionResponse :=
  let prediction_id := m.predictId f
  match pyIndex target_names prediction_id with
  | none => .error "list index out of range"
  | some prediction_name =>
    let probabilities := m.predictProba f
    match pyMax probabilities with
    | none => .error "max() arg is an empty sequence"
    | some confidence =>
      .ok { prediction := prediction_name
            prediction_id := prediction_id
            confidence := confidence
            probabilities := target_names.zip probabilities }

/-- The `POST /predict` endpoint (`src/api/app.py` lines 185-225): pydantic
validates the body before the handler runs; the handler then returns 503 when
no model is loaded, runs inference, and maps inference exceptions to 500. -/
def predict (model : Option IrisModel) (features : IrisFeatures) :
    Except ApiError PredictionResponse :=
  if ¬ features.valid then
    .error (.validation "Input should be less than or equal to 10 and greater than or equal to 0")
  else
    match model with
    | none => .error (.http 503 "Model not loaded")
    | some m =>
      match runInference m features with
      | .ok r => .ok r
      | .error e => .error (.http 500 ("Prediction failed: " ++ e))

/-- The `for sample in batch.samples` loop of `predict_batch`: results in
input order; the first inference exception aborts the loop. -/
def mapInference (m : IrisModel) : List IrisFeatures → Except String (List PredictionResponse)
  | [] => .ok []
  | s :: rest =>
    match runInference m s with
    | .error e => .error e
    | .ok r =>
      match mapInference m rest with
      | .error e => .error e
      | .ok rs => .ok (r :: rs)

/-- The `POST /predict/batch` endpoint (`src/api/app.py` lines 228-284):
pydantic validates every sample of the body before the handler runs; the
handler returns 503 when no model is loaded, then 400 when the batch exceeds
100 samples, then runs inference over each sample in order, mapping
exceptions to 500.  `batch_size` is `len(predictions)`. -/
def predict_batch (model : Option IrisModel) (samples : List IrisFeatures) :
    Except ApiError BatchPredictionResponse :=
  if ¬ samples.all IrisFeatures.valid then
    .error (.validation "Input should be less than or equal to 10 and greater than or equal to 0")
  else
    match model with
    | none => .error (.http 503 "Model not loaded")
    | some m =>
      if samples.length > 100 then
        .error (.http 400 "Batch size cannot exceed 100 samples")
      else
        match mapInference m samples with
        | .ok rs => .ok { predictions := rs, batch_size := rs.length }
        | .error e => .error (.http 500 ("Batch prediction failed: " ++ e))

/-- The response body of `GET /health`. -/
structure HealthResponse where
  status : String
  model_loaded : Bool
  timestamp : String
  deriving DecidableEq, Repr

/-- The `GET /health` endpoint (`src/api/app.py` lines 172-182).  `now` is
the ambient wall clock at the time of the call (which the handler does not
consult: its timestamp field is the literal written in the source). -/
def health_check (now : String) (model : Option IrisModel) :
    Except ApiError HealthResponse :=
  if model.isNone then
    .error (.http 503 "Model not loaded")
  else
    .ok { status := "healthy"
          model_loaded := model.isSome
          timestamp := "2024-01-01T00:00:00Z" }

/-- The environment `load_model` (`src/api/app.py` lines 88-128) runs in:
which candidate files exist (`Path(p).exists()`), what `joblib.load` yields
on each path (`none` models any exception raised), and the outcome of the
fallback block.  The fallback block (lines 111-124) imports the training
pipeline, trains a fresh model with default parameters, and persists it:
`trainNew` is the model the pipeline produces (`none` models an exception
while importing, loading data or training), and `saveOk` is whether
`os.makedirs` and `iris_model.save_model` succeed. -/
structure StartupEnv where
  pathOnDisk : String → Bool
  joblibLoad : String → Option IrisModel
  trainNew : Option IrisModel
  saveOk : Bool

/-- The candidate paths tried in order (`model_paths`, lines 93-97). -/
def model_paths : List String :=
  ["models/iris_model.joblib", "/app/models/iris_model.joblib", "iris_model.joblib"]

/-- The `for model_path in model_paths:` loop (lines 99-107): the first path
that exists and deserializes without error wins; a path that exists but fails
to deserialize is skipped (`continue`). -/
def tryLoadPaths (env : StartupEnv) : List String → Option IrisModel
  | [] => none
  | p :: rest =>
    if env.pathOnDisk p then
      match env.joblibLoad p with
      | some m => some m
      | none => tryLoadPaths env rest
    else
      tryLoadPaths env rest

/-- The startup routine `load_model` (lines 88-128): try the candidate paths in order; if none
yields a model, train a fresh one, persist it (an exception anywhere in that
block, including while saving, is caught by the `except` on line 126) and use
it; otherwise raise `RuntimeError`.  Returns the value of the global `model`
on success. -/
def load_model (env : StartupEnv) : Except String IrisModel :=
  match tryLoadPaths env model_paths with
  | some m => .ok m
  | none =>
    match env.trainNew with
    | some im =>
      if env.saveOk then .ok im
      else .error "Could not load or train model"
    | none => .error "Could not load or train model"

/-- What `GET /` can produce: the static asset, or the JSON API description
(whose fields are the literals of `src/api/app.py` lines 143-153). -/
inductive RootResponse where
  | file (path : String)
  | apiDescription (message version : String)
  deriving DecidableEq, Repr

/-- Modelled from the spec: the web framework's `FileResponse` collaborator
(outside the sources) "serves a static front-end asset if present"; when the
asset is absent it raises `FileNotFoundError`, modelled as `.error ()`.
`staticOnDisk` says whether `static/index.html` is present. -/
def fileResponse (staticOnDisk : Bool) (path : String) : Except Unit RootResponse :=
  if staticOnDisk then .ok (.file path) else .error ()

/-- The `GET /` endpoint (`src/api/app.py` lines 137-153): serve
`static/index.html`; on `FileNotFoundError` fall back to the JSON API
description. -/
def root (staticOnDisk : Bool) : RootResponse :=
  match fileResponse staticOnDisk "static/index.html" with
  | .ok r => r
  | .error _ => .apiDescription "Iris Classification API" "1.0.0"

/-! ## Data loader (`src/data/data_loader.py`) -/

/-- The four partitions returned by `DataLoader.split_data` as the tuple
`(X_train, X_test, y_train, y_test)`. -/
structure SplitResult (α : Type) where
  X_train : List α
  X_test : List α
  y_train : List ℕ
  y_test : List ℕ
  deriving DecidableEq, Repr

/-- A linear-congruential pseudo-random step (glibc constants), the concrete
deterministic stand-in for numpy's seeded generator. -/
def lcg (s : ℕ) : ℕ :=
  (1103515245 * s + 12345) % 2147483648

/-- Deterministic shuffle driven by `lcg`: repeatedly extract the element at
the generator-chosen position.  The first argument is fuel (the length). -/
def shuffleGo {α : Type} : ℕ → ℕ → List α → List α
  | 0, _, l => l
  | _ + 1, _, [] => []
  | fuel + 1, s, l =>
    let i := s % l.length
    match l[i]? with
    | none => l
    | some x => x :: shuffleGo fuel (lcg s) (l.eraseIdx i)

/-- Seeded deterministic shuffle. -/
def shuffle {α : Type} (seed : ℕ) (l : List α) : List α :=
  shuffleGo l.length (lcg seed) l

/-- Insert into a sorted list of naturals. -/
def insertSorted (x : ℕ) : List ℕ → List ℕ
  | [] => [x]
  | a :: as => if x ≤ a then x :: a :: as else a :: insertSorted x as

/-- Insertion sort on naturals. -/
def sortNat (l : List ℕ) : List ℕ :=
  l.foldr insertSorted []

/-- The distinct class labels of `y` in increasing order (numpy's
`np.unique`). -/
def uniqueClasses (y : List ℕ) : List ℕ :=
  sortNat y.dedup

/-- The row indices of `y` holding class `c`, in dataset order. -/
def indicesOf (y : List ℕ) (c : ℕ) : List ℕ :=
  (List.range y.length).filter (fun i => y[i]? == some c)

/-- The number of test rows: `ceil(test_size * n)` (scikit-learn's rounding
for a fractional `test_size`), computed on the rational's numerator and
denominator. -/
def nTestRows (n : ℕ) (test_size : ℚ) : ℕ :=
  let q := test_size * n
  if q ≤ 0 then 0 else (q.num.toNat + q.den - 1) / q.den

/-- Hand out `extra` leftover test slots, one to each of the first classes. -/
def distributeExtra : ℕ → List ℕ → List ℕ
  | _, [] => []
  | 0, l => l
  | k + 1, a :: as => (a + 1) :: distributeExtra k as

/-- Per-class test-row allocation: proportional floor allocation over the
class counts, remainders handed out in class order, so the test partition
mirrors the class proportions of `y` as closely as integer rounding allows. -/
def allocTest (nt n : ℕ) (counts : List ℕ) : List ℕ :=
  let base := counts.map (fun c => nt * c / n)
  distributeExtra (nt - base.sum) base

/-- Modelled from the spec: scikit-learn's `train_test_split(..., stratify=y)`
collaborator (outside the sources) as invoked by `DataLoader.split_data` —
"Split is stratified: the label distribution in each partition mirrors the
whole dataset as closely as integer rounding allows. Same seed + same
testFraction ⇒ identical split."  Per class (in sorted label order), the
rows of that class are deterministically shuffled from the seed and the
allocated number of them becomes test rows, the rest training rows.
Returns `(train row indices, test row indices)`. -/
def splitIndicesCore (seed : ℕ) (y : List ℕ) (nt : ℕ) : List ℕ × List ℕ :=
  let n := y.length
  let classes := uniqueClasses y
  let counts := classes.map (fun c => y.count c)
  let alloc := allocTest nt n counts
  let per := (classes.zip alloc).map (fun p =>
    let idxs := shuffle (seed + p.1) (indicesOf y p.1)
    (idxs.drop p.2, idxs.take p.2))
  ((per.map Prod.fst).flatten, (per.map Prod.snd).flatten)

/-- See `splitIndicesCore`: the test-row count is `ceil(test_size * n)`. -/
def splitIndices (seed : ℕ) (y : List ℕ) (test_size : ℚ) : List ℕ × List ℕ :=
  splitIndicesCore seed y (nTestRows y.length test_size)

/-- The method `DataLoader.split_data` (`src/data/data_loader.py` lines 62-85): a thin
wrapper over the stratified `train_test_split`.  `globalSeed` is the ambient
global random state, consulted only when `random_state` is `none` (the
repository always passes a seed, default 42). -/
def split_data {α : Type} (globalSeed : ℕ) (X : List α) (y : List ℕ)
    (test_size : ℚ) (random_state : Option ℕ) : SplitResult α :=
  let seed := random_state.getD globalSeed
  let idx := splitIndices seed y test_size
  { X_train := idx.1.filterMap (fun i => X[i]?)
    X_test := idx.2.filterMap (fun i => X[i]?)
    y_train := idx.1.filterMap (fun i => y[i]?)
    y_test := idx.2.filterMap (fun i => y[i]?) }

/-- The label vector of the fixed 150-row iris dataset (50 rows per class, in
class order), as loaded by `load_iris`. -/
def iris_target : List ℕ :=
  List.replicate 50 0 ++ List.replicate 50 1 ++ List.replicate 50 2

/-- Whether an `Except` is a success. -/
def isOk {ε α : Type} : Except ε α → Bool
  | .ok _ => true
  | .error _ => false

/-- The response `predict` assembles once inference succeeds; under
`IrisModel.WF` this is exactly what `runInference` returns. -/
def responseOf (m : IrisModel) (f : IrisFeatures) : PredictionResponse :=
  { prediction := (pyIndex target_names (m.predictId f)).getD ""
    prediction_id := m.predictId f
    confidence := (pyMax (m.predictProba f)).getD 0
    probabilities := target_names.zip (m.predictProba f) }

/-- A deterministic stand-in classifier used to instantiate the contracts:
always predicts class 0 with probability 1. -/
def constModel : IrisModel :=
  { predictId := fun _ => 0
    predictProba := fun _ => [1, 0, 0] }

lemma constModel_wf : constModel.WF := by
  intro f
  refine ⟨le_refl 0, by norm_num [constModel], rfl, ?_, by norm_num [constModel]⟩
  intro p hp
  simp only [constModel, List.mem_cons, List.not_mem_nil, or_false] at hp
  rcases hp with h | h | h <;> simp [h]

lemma pyMax_mem {l : List ℚ} {a : ℚ} (h : pyMax l = some a) : a ∈ l := by
  induction l generalizing a with
  | nil => simp [pyMax] at h
  | cons x xs ih =>
    rw [pyMax] at h
    cases hx : pyMax xs with
    | none =>
      rw [hx] at h
      simp only [Option.some.injEq] at h
      simp [← h]
    | some b =>
      rw [hx] at h
      simp only [Option.some.injEq] at h
      rcases max_choice x b with h1 | h1 <;> rw [← h, h1]
      · simp
      · exact List.mem_cons_of_mem _ (ih hx)

lemma le_pyMax {l : List ℚ} {a b : ℚ} (h : pyMax l = some a) (hb : b ∈ l) : b ≤ a := by
  induction l generalizing a with
  | nil => simp at hb
  | cons x xs ih =>
    rw [pyMax] at h
    rcases List.mem_cons.mp hb with hb1 | hb1
    · cases hx : pyMax xs with
      | none =>
        rw [hx] at h
        simp only [Option.some.injEq] at h
        rw [hb1, ← h]
      | some c =>
        rw [hx] at h
        simp only [Option.some.injEq] at h
        rw [hb1, ← h]
        exact le_max_left _ _
    · cases hx : pyMax xs with
      | none =>
        rcases xs with _ | ⟨z, zs⟩
        · simp at hb1
        · rw [pyMax] at hx
          cases hz : pyMax zs <;> rw [hz] at hx <;> simp at hx
      | some c =>
        rw [hx] at h
        simp only [Option.some.injEq] at h
        calc b ≤ c := ih hx hb1
          _ ≤ a := by rw [← h]; exact le_max_right _ _

lemma pyMax_cons_some (x : ℚ) (xs : List ℚ) : ∃ a, pyMax (x :: xs) = some a := by
  rw [pyMax]
  cases hx : pyMax xs <;> exact ⟨_, rfl⟩

lemma pyIndex_some_mem {l : List String} {i : ℤ} (h0 : 0 ≤ i) (hlt : i < l.length) :
    ∃ s, pyIndex l i = some s ∧ s ∈ l := by
  have hn : pyNorm l.length i = i := if_neg (not_lt.mpr h0)
  rw [pyIndex]
  rw [dif_pos (by rw [hn]; exact ⟨h0, hlt⟩)]
  exact ⟨_, rfl, List.get_mem _ _ _⟩

lemma proba_cons {m : IrisModel} (hwf : m.WF) (f : IrisFeatures) :
    ∃ x xs, m.predictProba f = x :: xs := by
  obtain ⟨-, -, hlen, -, -⟩ := hwf f
  cases h : m.predictProba f with
  | nil => rw [h] at hlen; simp at hlen
  | cons x xs => exact ⟨x, xs, rfl⟩

lemma runInference_eq_ok {m : IrisModel} (hwf : m.WF) (f : IrisFeatures) :
    runInference m f = .ok (responseOf m f) := by
  obtain ⟨h0, h3, hlen, hbd, hsum⟩ := hwf f
  obtain ⟨s, hs, hmem⟩ :=
    pyIndex_some_mem (l := target_names) h0 (by simpa [target_names] using h3)
  obtain ⟨x, xs, hx⟩ := proba_cons hwf f
  obtain ⟨a, ha⟩ := pyMax_cons_some x xs
  simp only [runInference, responseOf, hs, hx, ha, Option.getD_some]

lemma predict_some_valid {m : IrisModel} {f : IrisFeatures} (hv : f.valid = true) :
    predict (some m) f =
      match runInference m f with
      | .ok r => .ok r
      | .error e => .error (.http 500 ("Prediction failed: " ++ e)) := by
  rw [predict.eq_def, if_neg (by rw [hv]; simp)]

/-- C1: for every valid sample and every loaded well-formed model, `predict`
succeeds with a class name from the fixed 3-name table, a confidence in
`[0,1]` equal to the maximum of the returned probability distribution, and a
probability distribution keyed by the 3 class names summing exactly to 1. -/
theorem predict_valid_contract (m : IrisModel) (f : IrisFeatures)
    (hwf : m.WF) (hv : f.valid = true) :
    ∃ r, predict (some m) f = .ok r ∧
      r.prediction ∈ target_names ∧
      0 ≤ r.confidence ∧ r.confidence ≤ 1 ∧
      pyMax (r.probabilities.map Prod.snd) = some r.confidence ∧
      r.probabilities.map Prod.fst = target_names ∧
      (r.probabilities.map Prod.snd).sum = 1 := by
  obtain ⟨h0, h3, hlen, hbd, hsum⟩ := hwf f
  obtain ⟨s, hs, hmem⟩ :=
    pyIndex_some_mem (l := target_names) h0 (by simpa [target_names] using h3)
  obtain ⟨x, xs, hx⟩ := proba_cons hwf f
  obtain ⟨a, ha⟩ := pyMax_cons_some x xs
  have hpm : pyMax (m.predictProba f) = some a := by rw [hx]; exact ha
  have hsnd : (target_names.zip (m.predictProba f)).map Prod.snd = m.predictProba f :=
    List.map_snd_zip _ _ (by rw [hlen]; simp [target_names])
  have hfst : (target_names.zip (m.predictProba f)).map Prod.fst = target_names :=
    List.map_fst_zip _ _ (by rw [hlen]; simp [target_names])
  refine ⟨responseOf m f, ?_, ?_, ?_, ?_, ?_, ?_, ?_⟩
  · rw [predict_some_valid hv, runInference_eq_ok hwf f]
  · simp only [responseOf]
    rw [hs]
    simpa using hmem
  · simp only [responseOf]
    rw [hpm]
    simp only [Option.getD_some]
    exact (hbd a (pyMax_mem hpm)).1
  · simp only [responseOf]
    rw [hpm]
    simp only [Option.getD_some]
    exact (hbd a (pyMax_mem hpm)).2
  · simp only [responseOf]
    rw [hsnd, hpm]
    simp only [Option.getD_some]
  · simp only [responseOf]
    rw [hfst]
  · simp only [responseOf]
    rw [hsnd]
    exact hsum

/-- Witness for C1: the contract instantiated on the canonical easy sample
and the constant classifier. -/
theorem predict_valid_contract_witness :
    ∃ r, predict (some constModel) ⟨5, 3, 1, 0⟩ = .ok r ∧
      r.prediction ∈ target_names ∧
      0 ≤ r.confidence ∧ r.confidence ≤ 1 ∧
      pyMax (r.probabilities.map Prod.snd) = some r.confidence ∧
      r.probabilities.map Prod.fst = target_names ∧
      (r.probabilities.map Prod.snd).sum = 1 :=
  predict_valid_contract constModel ⟨5, 3, 1, 0⟩ constModel_wf (by decide)

/-- C2: a sample with any field outside `[0,10]` is rejected by pydantic
validation with a `ValidationError`, with the same outcome no matter which
model (if any) is loaded — no inference is performed; samples whose fields
sit on the boundaries 0 and 10 pass validation. -/
theorem predict_invalid_rejected (m : Option IrisModel) (f : IrisFeatures)
    (hv : f.valid = false) :
    predict m f =
      .error (.validation "Input should be less than or equal to 10 and greater than or equal to 0") ∧
    (predict m f).mapError ApiError.isValidationError =
      (predict m f).mapError (fun _ => true) ∧
    predict m f = predict none f ∧
    IrisFeatures.valid ⟨0, 0, 0, 0⟩ = true ∧
    IrisFeatures.valid ⟨10, 10, 10, 10⟩ = true := by
  have he : ∀ mo : Option IrisModel, predict mo f =
      .error (.validation "Input should be less than or equal to 10 and greater than or equal to 0") := by
    intro mo
    rw [predict.eq_def, if_pos (by rw [hv]; simp)]
  refine ⟨he m, ?_, ?_, by decide, by decide⟩
  · rw [he m]
    rfl
  · rw [he m, he none]

/-- Witness for C2: a sample with `sepal_length = 15` is rejected even with a
model loaded, and the boundary samples pass validation. -/
theorem predict_invalid_rejected_witness :
    predict (some constModel) ⟨15, 3, 1, 0⟩ =
      .error (.validation "Input should be less than or equal to 10 and greater than or equal to 0") ∧
    (predict (some constModel) ⟨15, 3, 1, 0⟩).mapError ApiError.isValidationError =
      (predict (some constModel) ⟨15, 3, 1, 0⟩).mapError (fun _ => true) ∧
    predict (some constModel) ⟨15, 3, 1, 0⟩ = predict none ⟨15, 3, 1, 0⟩ ∧
    IrisFeatures.valid ⟨0, 0, 0, 0⟩ = true ∧
    IrisFeatures.valid ⟨10, 10, 10, 10⟩ = true :=
  predict_invalid_rejected (some constModel) ⟨15, 3, 1, 0⟩ (by decide)

lemma mapInference_eq_ok {m : IrisModel} (hwf : m.WF) (samples : List IrisFeatures) :
    mapInference m samples = .ok (samples.map (responseOf m)) := by
  induction samples with
  | nil => rfl
  | cons s rest ih =>
    rw [mapInference, runInference_eq_ok hwf s]
    rw [ih]
    rfl

lemma predict_batch_some {m : IrisModel} {samples : List IrisFeatures}
    (hv : samples.all IrisFeatures.valid = true) :
    predict_batch (some m) samples =
      if samples.length > 100 then
        .error (.http 400 "Batch size cannot exceed 100 samples")
      else
        match mapInference m samples with
        | .ok rs => .ok { predictions := rs, batch_size := rs.length }
        | .error e => .error (.http 500 ("Batch prediction failed: " ++ e)) := by
  rw [predict_batch.eq_def, if_neg (by rw [hv]; simp)]

/-- C3: with a well-formed model loaded, `predict_batch` on a batch of valid
samples rejects more than 100 samples with the 400 `ValidationError` and
returns no result structure at all (all-or-nothing), while a batch of at
most 100 samples yields exactly one `PredictionResponse` per input sample,
in input order (the map of per-sample inference over the batch), with
`batch_size` equal to the number of samples. -/
theorem predict_batch_contract (m : IrisModel) (samples : List IrisFeatures)
    (hwf : m.WF) (hv : samples.all IrisFeatures.valid = true) :
    (samples.length > 100 →
      predict_batch (some m) samples =
        .error (.http 400 "Batch size cannot exceed 100 samples") ∧
      (ApiError.http 400 "Batch size cannot exceed 100 samples").isValidationError = true) ∧
    (samples.length ≤ 100 →
      predict_batch (some m) samples =
        .ok { predictions := samples.map (responseOf m), batch_size := samples.length }) := by
  constructor
  · intro hlen
    refine ⟨?_, rfl⟩
    rw [predict_batch_some hv, if_pos hlen]
  · intro hlen
    rw [predict_batch_some hv, if_neg (by omega), mapInference_eq_ok hwf]
    simp

/-- Witness for C3: a 101-sample batch is rejected with the 400 error, a
1-sample batch returns exactly its one result. -/
theorem predict_batch_contract_witness :
    predict_batch (some constModel) (List.replicate 101 ⟨5, 3, 1, 0⟩) =
      .error (.http 400 "Batch size cannot exceed 100 samples") ∧
    predict_batch (some constModel) [⟨5, 3, 1, 0⟩] =
      .ok { predictions := [(⟨5, 3, 1, 0⟩ : IrisFeatures)].map (responseOf constModel),
            batch_size := [(⟨5, 3, 1, 0⟩ : IrisFeatures)].length } :=
  ⟨((predict_batch_contract constModel _ constModel_wf (by decide)).1 (by decide)).1,
   (predict_batch_contract constModel _ constModel_wf (by decide)).2 (by decide)⟩

/-- C10: in `predict_batch` the model-loaded check precedes the batch-size
check: an over-100 batch of valid samples submitted with no model loaded
fails with the 503 `ServiceUnavailable`, never with the 400 batch-size
`ValidationError`. -/
theorem predict_batch_no_model (samples : List IrisFeatures)
    (hv : samples.all IrisFeatures.valid = true) (hlen : samples.length > 100) :
    predict_batch none samples = .error (.http 503 "Model not loaded") ∧
    (∀ d, predict_batch none samples ≠ .error (.http 400 d)) := by
  have he : predict_batch none samples = .error (.http 503 "Model not loaded") := by
    rw [predict_batch.eq_def, if_neg (by rw [hv]; simp)]
  refine ⟨he, fun d hd => ?_⟩
  rw [he] at hd
  simp at hd

/-- Witness for C10: a valid 101-sample batch with no model loaded gets the
503 error. -/
theorem predict_batch_no_model_witness :
    predict_batch none (List.replicate 101 ⟨5, 3, 1, 0⟩) =
      .error (.http 503 "Model not loaded") ∧
    (∀ d, predict_batch none (List.replicate 101 ⟨5, 3, 1, 0⟩) ≠ .error (.http 400 d)) :=
  predict_batch_no_model (List.replicate 101 ⟨5, 3, 1, 0⟩) (by decide) (by decide)

/-- C4: `health_check` reports readiness exactly when a model is loaded: it
fails with 503 when no model is loaded, succeeds with `model_loaded = true`
when one is, and succeeds on the model installed by a successful
`load_model`; being a pure function of the model slot, it has no side
effects. -/
theorem health_check_contract (now : String) (m : Option IrisModel)
    (env : StartupEnv) (mdl : IrisModel) :
    (isOk (health_check now m) = true ↔ m.isSome = true) ∧
    (m = none → health_check now m = .error (.http 503 "Model not loaded")) ∧
    (∀ r, health_check now m = .ok r → r.model_loaded = true ∧ r.status = "healthy") ∧
    (load_model env = .ok mdl → isOk (health_check now (some mdl)) = true) := by
  refine ⟨?_, ?_, ?_, ?_⟩
  · cases m <;> simp [health_check, isOk]
  · rintro rfl
    rfl
  · intro r hr
    cases m with
    | none => simp [health_check] at hr
    | some mm =>
      simp only [health_check, Option.isNone_some, Bool.false_eq_true, if_false] at hr
      rw [Except.ok.injEq] at hr
      rw [← hr]
      exact ⟨rfl, rfl⟩
  · intro _
    simp [health_check, isOk]

/-- Witness for C4: readiness is true with the constant model loaded, 503
with none loaded, `model_loaded` is true in the success response, and a
startup that trains the constant model yields a ready service. -/
theorem health_check_contract_witness :
    isOk (health_check "2026-10-12T00:00:00Z" (some constModel)) = true ∧
    health_check "2026-10-12T00:00:00Z" (none : Option IrisModel) =
      .error (.http 503 "Model not loaded") ∧
    (HealthResponse.mk "healthy" true "2024-01-01T00:00:00Z").model_loaded = true ∧
    isOk (health_check "2026-10-12T00:00:00Z" (some constModel)) = true :=
  ⟨(health_check_contract "2026-10-12T00:00:00Z" (some constModel)
      ⟨fun _ => false, fun _ => none, some constModel, true⟩ constModel).1.mpr rfl,
   (health_check_contract "2026-10-12T00:00:00Z" (none : Option IrisModel)
      ⟨fun _ => false, fun _ => none, some constModel, true⟩ constModel).2.1 rfl,
   ((health_check_contract "2026-10-12T00:00:00Z" (some constModel)
      ⟨fun _ => false, fun _ => none, some constModel, true⟩ constModel).2.2.1
      (HealthResponse.mk "healthy" true "2024-01-01T00:00:00Z") rfl).1,
   (health_check_contract "2026-10-12T00:00:00Z" (some constModel)
      ⟨fun _ => false, fun _ => none, some constModel, true⟩ constModel).2.2.2 rfl⟩

/-- C9: whenever `health_check` succeeds, its timestamp field is the fixed
literal "2024-01-01T00:00:00Z", and the response does not depend on the
ambient wall clock at all. -/
theorem health_timestamp_fixed (now1 now2 : String) (m : Option IrisModel) :
    (∀ r, health_check now1 m = .ok r → r.timestamp = "2024-01-01T00:00:00Z") ∧
    health_check now1 m = health_check now2 m := by
  constructor
  · intro r hr
    cases m with
    | none => simp [health_check] at hr
    | some mm =>
      simp only [health_check, Option.isNone_some, Bool.false_eq_true, if_false] at hr
      rw [Except.ok.injEq] at hr
      rw [← hr]
  · rfl

/-- Witness for C9: two health calls at different wall-clock times agree and
carry the fixed timestamp. -/
theorem health_timestamp_fixed_witness :
    (HealthResponse.mk "healthy" true "2024-01-01T00:00:00Z").timestamp =
      "2024-01-01T00:00:00Z" ∧
    health_check "2025-06-01T12:00:00Z" (some constModel) =
      health_check "2026-10-12T00:00:00Z" (some constModel) :=
  ⟨(health_timestamp_fixed "2025-06-01T12:00:00Z" "2026-10-12T00:00:00Z"
      (some constModel)).1 (HealthResponse.mk "healthy" true "2024-01-01T00:00:00Z") rfl,
   (health_timestamp_fixed "2025-06-01T12:00:00Z" "2026-10-12T00:00:00Z"
      (some constModel)).2⟩

/-- A candidate path both exists on disk and deserializes to a model. -/
def pathLoads (env : StartupEnv) (p : String) : Bool :=
  env.pathOnDisk p && (env.joblibLoad p).isSome

lemma tryLoadPaths_none_iff (env : StartupEnv) (l : List String) :
    tryLoadPaths env l = none ↔ ∀ p ∈ l, pathLoads env p = false := by
  induction l with
  | nil => simp [tryLoadPaths]
  | cons p rest ih =>
    rw [tryLoadPaths]
    by_cases hd : env.pathOnDisk p = true
    · rw [if_pos hd]
      cases hl : env.joblibLoad p with
      | some mm => simp [pathLoads, hd, hl]
      | none => simp [pathLoads, hd, hl, ih]
    · rw [if_neg hd]
      simp only [Bool.not_eq_true] at hd
      simp [pathLoads, hd, ih]

lemma tryLoadPaths_first {env : StartupEnv} (l1 : List String) (p : String)
    (l2 : List String) (m : IrisModel) (hl1 : ∀ q ∈ l1, pathLoads env q = false)
    (hd : env.pathOnDisk p = true) (hl : env.joblibLoad p = some m) :
    tryLoadPaths env (l1 ++ p :: l2) = some m := by
  induction l1 with
  | nil =>
    rw [List.nil_append, tryLoadPaths, if_pos hd, hl]
  | cons q qs ih =>
    have hq0 := hl1 q (List.mem_cons_self q qs)
    have hrest : ∀ r ∈ qs, pathLoads env r = false :=
      fun r hr => hl1 r (List.mem_cons_of_mem _ hr)
    rw [List.cons_append, tryLoadPaths]
    by_cases hqd : env.pathOnDisk q = true
    · rw [if_pos hqd]
      cases hql : env.joblibLoad q with
      | some mm =>
        rw [pathLoads, hqd, hql] at hq0
        simp at hq0
      | none => exact ih hrest
    · rw [if_neg hqd]
      exact ih hrest

lemma load_model_none (env : StartupEnv) (h : tryLoadPaths env model_paths = none) :
    load_model env =
      match env.trainNew with
      | some im => if env.saveOk then .ok im else .error "Could not load or train model"
      | none => .error "Could not load or train model" := by
  rw [load_model.eq_def, h]

/-- C5 (amended): `load_model` uses the first candidate path that exists and
deserializes; when every candidate fails it uses the freshly trained and
persisted model; and it fails fatally exactly when every candidate path
fails and the fallback train-and-persist block fails (either training raises
or persisting the fresh model raises). -/
theorem load_model_contract (env : StartupEnv) :
    (∀ l1 p l2 m, model_paths = l1 ++ p :: l2 →
      (∀ q ∈ l1, pathLoads env q = false) →
      env.pathOnDisk p = true → env.joblibLoad p = some m →
      load_model env = .ok m) ∧
    ((∀ p ∈ model_paths, pathLoads env p = false) →
      ∀ im, env.trainNew = some im → env.saveOk = true → load_model env = .ok im) ∧
    (isOk (load_model env) = false ↔
      ((∀ p ∈ model_paths, pathLoads env p = false) ∧
        (env.trainNew = none ∨ env.saveOk = false))) := by
  refine ⟨?_, ?_, ?_⟩
  · intro l1 p l2 m heq hl1 hd hl
    have ht : tryLoadPaths env model_paths = some m := by
      rw [heq]
      exact tryLoadPaths_first l1 p l2 m hl1 hd hl
    rw [load_model.eq_def, ht]
  · intro hall im htr hsv
    have ht : tryLoadPaths env model_paths = none :=
      (tryLoadPaths_none_iff env model_paths).mpr hall
    rw [load_model_none env ht]
    simp [htr, hsv]
  · cases hTry : tryLoadPaths env model_paths with
    | some mm =>
      have he : load_model env = .ok mm := by rw [load_model.eq_def, hTry]
      rw [he]
      constructor
      · intro h
        simp [isOk] at h
      · rintro ⟨hall, -⟩
        rw [(tryLoadPaths_none_iff env model_paths).mpr hall] at hTry
        cases hTry
    | none =>
      have hall := (tryLoadPaths_none_iff env model_paths).mp hTry
      rw [load_model_none env hTry]
      cases htr : env.trainNew with
      | none =>
        constructor
        · intro _
          exact ⟨hall, Or.inl rfl⟩
        · intro _
          rfl
      | some im =>
        cases hsv : env.saveOk with
        | true =>
          constructor
          · intro h
            simp [isOk] at h
          · rintro ⟨-, h1 | h1⟩
            · cases h1
            · cases h1
        | false =>
          constructor
          · intro _
            exact ⟨hall, Or.inr rfl⟩
          · intro _
            rfl

/-- Witness for C5 (amended): a first-success load, a fallback
train-and-persist success, and a fatal outcome when the fallback cannot
persist. -/
theorem load_model_contract_witness :
    load_model
      { pathOnDisk := fun p => p == "iris_model.joblib"
        joblibLoad := fun p => if p == "iris_model.joblib" then some constModel else none
        trainNew := none
        saveOk := true } = .ok constModel ∧
    load_model
      { pathOnDisk := fun _ => false
        joblibLoad := fun _ => none
        trainNew := some constModel
        saveOk := true } = .ok constModel ∧
    isOk (load_model
      { pathOnDisk := fun _ => false
        joblibLoad := fun _ => none
        trainNew := none
        saveOk := true }) = false :=
  ⟨(load_model_contract _).1 ["models/iris_model.joblib", "/app/models/iris_model.joblib"]
      "iris_model.joblib" [] constModel rfl (by decide) rfl rfl,
   (load_model_contract _).2.1 (by decide) constModel rfl rfl,
   (load_model_contract _).2.2.mpr ⟨by decide, Or.inl rfl⟩⟩

/-- A startup environment in which no candidate path loads, training
succeeds, but persisting the fresh model fails. -/
def brokenSaveEnv : StartupEnv :=
  { pathOnDisk := fun _ => false
    joblibLoad := fun _ => none
    trainNew := some constModel
    saveOk := false }

/-- Counterexample to C5 as stated: with every candidate path failing,
training succeeding, and only the persist step failing, `load_model` still
raises the fatal `RuntimeError` — so the service can fail to become ready
even though fresh training did not fail. -/
theorem load_model_save_failure_fatal :
    brokenSaveEnv.trainNew = some constModel ∧
    (∀ p ∈ model_paths, pathLoads brokenSaveEnv p = false) ∧
    load_model brokenSaveEnv = .error "Could not load or train model" :=
  ⟨rfl, by decide, rfl⟩

/-- C6: `GET /` serves the static asset when it is present and otherwise
falls back to the JSON description of the API surface; which of the two
happens is fully determined by the presence of the asset. -/
theorem root_contract (staticOnDisk : Bool) :
    (staticOnDisk = true → root staticOnDisk = .file "static/index.html") ∧
    (staticOnDisk = false →
      root staticOnDisk = .apiDescription "Iris Classification API" "1.0.0") ∧
    (root staticOnDisk = .file "static/index.html" ↔ staticOnDisk = true) ∧
    (root staticOnDisk = .apiDescription "Iris Classification API" "1.0.0" ↔
      staticOnDisk = false) := by
  cases staticOnDisk <;> refine ⟨?_, ?_, ?_, ?_⟩ <;> simp [root, fileResponse]

/-- Witness for C6: both branches at their concrete inputs. -/
theorem root_contract_witness :
    root true = .file "static/index.html" ∧
    root false = .apiDescription "Iris Classification API" "1.0.0" :=
  ⟨(root_contract true).1 rfl, (root_contract false).2.1 rfl⟩

/-- C7: `split_data` is deterministic: with an explicit `random_state` seed,
the split is a function of the data, the test fraction and the seed alone —
two calls under arbitrarily different ambient global random states produce
identical partitions. -/
theorem split_data_deterministic {α : Type} (g1 g2 : ℕ) (X : List α) (y : List ℕ)
    (ts : ℚ) (s : ℕ) :
    split_data g1 X y ts (some s) = split_data g2 X y ts (some s) := rfl

lemma split_data_X_train {α : Type} (g : ℕ) (X : List α) (y : List ℕ) (ts : ℚ) (s : ℕ) :
    (split_data g X y ts (some s)).X_train =
      (splitIndices s y ts).1.filterMap (fun i => X[i]?) := rfl

lemma split_data_X_test {α : Type} (g : ℕ) (X : List α) (y : List ℕ) (ts : ℚ) (s : ℕ) :
    (split_data g X y ts (some s)).X_test =
      (splitIndices s y ts).2.filterMap (fun i => X[i]?) := rfl

lemma split_data_y_train {α : Type} (g : ℕ) (X : List α) (y : List ℕ) (ts : ℚ) (s : ℕ) :
    (split_data g X y ts (some s)).y_train =
      (splitIndices s y ts).1.filterMap (fun i => y[i]?) := rfl

lemma split_data_y_test {α : Type} (g : ℕ) (X : List α) (y : List ℕ) (ts : ℚ) (s : ℕ) :
    (split_data g X y ts (some s)).y_test =
      (splitIndices s y ts).2.filterMap (fun i => y[i]?) := rfl

lemma nTest_150 : nTestRows 150 (1/5) = 30 := by
  norm_num [nTestRows]
  decide

lemma splitIndices_iris : splitIndices 42 iris_target (1/5) = splitIndicesCore 42 iris_target 30 := by
  rw [splitIndices]
  have h1 : iris_target.length = 150 := by decide
  rw [h1, nTest_150]

lemma length_filterMap_getElem {α : Type} (X : List α) (idx : List ℕ) :
    (∀ i ∈ idx, i < X.length) →
      (idx.filterMap (fun i => X[i]?)).length = idx.length := by
  induction idx with
  | nil =>
    intro _
    rfl
  | cons a as ih =>
    intro h
    rw [List.filterMap_cons]
    rw [List.getElem?_eq_getElem (h a (List.mem_cons_self a as))]
    simp only [List.length_cons]
    rw [ih (fun i hi => h i (List.mem_cons_of_mem _ hi))]

/-- C8: on the fixed 150-row iris dataset with `test_size = 0.2` and seed
42, `split_data` yields exactly 120 training rows and 30 test rows, and the
split is stratified: each class has 10 of the 30 test rows and 40 of the 120
training rows, within one row of the class's share of the full dataset
(`|count_partition * 150 - count_full * partition_size| ≤ 150`). -/
theorem split_data_iris_strat (g : ℕ) {α : Type} (X : List α) (hX : X.length = 150) :
    (split_data g X iris_target (1/5) (some 42)).X_train.length = 120 ∧
    (split_data g X iris_target (1/5) (some 42)).X_test.length = 30 ∧
    (split_data g X iris_target (1/5) (some 42)).y_train.length = 120 ∧
    (split_data g X iris_target (1/5) (some 42)).y_test.length = 30 ∧
    ∀ c ∈ [0, 1, 2],
      (split_data g X iris_target (1/5) (some 42)).y_test.count c = 10 ∧
      (split_data g X iris_target (1/5) (some 42)).y_train.count c = 40 ∧
      (((split_data g X iris_target (1/5) (some 42)).y_test.count c : ℤ) * 150 -
        (iris_target.count c : ℤ) * 30).natAbs ≤ 150 ∧
      (((split_data g X iris_target (1/5) (some 42)).y_train.count c : ℤ) * 150 -
        (iris_target.count c : ℤ) * 120).natAbs ≤ 150 := by
  have hbTrain : ∀ i ∈ (splitIndicesCore 42 iris_target 30).1, i < 150 := by decide
  have hbTest : ∀ i ∈ (splitIndicesCore 42 iris_target 30).2, i < 150 := by decide
  rw [split_data_X_train, split_data_X_test, split_data_y_train, split_data_y_test,
    splitIndices_iris]
  refine ⟨?_, ?_, ?_, ?_, ?_⟩
  · rw [length_filterMap_getElem X _ (by rw [hX]; exact hbTrain)]
    decide
  · rw [length_filterMap_getElem X _ (by rw [hX]; exact hbTest)]
    decide
  · decide
  · decide
  · decide

/-- Witness for C8: the counts instantiated on a concrete 150-row feature
list. -/
theorem split_data_iris_strat_witness :
    (List.range 150).length = 150 ∧
    (split_data 0 (List.range 150) iris_target (1/5) (some 42)).X_test.length = 30 ∧
    (split_data 0 (List.range 150) iris_target (1/5) (some 42)).y_test.length = 30 :=
  ⟨by decide,
   (split_data_iris_strat 0 (List.range 150) (by decide)).2.1,
   (split_data_iris_strat 0 (List.range 150) (by decide)).2.2.2.1⟩

end MLOps
